import Mathlib

/-!
Verification of the call-session bridge of the isibi backend.

The definitions below are a shallow embedding of the Twilio/OpenAI realtime
bridge implemented in `src/main.py` (the `handle_media_stream` websocket
handler with its two cooperating loops `receive_from_twilio` and
`send_to_twilio`, and the nested `handle_speech_started_event` and
`send_mark` helpers), together with the billing helpers of `src/db.py`
(`calculate_call_cost`, `calculate_call_revenue`, `deduct_credits`).

Conventions of the embedding:
* The mutable per-call variables of `handle_media_stream` become the fields
  of `SessionState`.  Python `None` becomes `Option.none`.
* Frames written to the OpenAI realtime websocket and to the Twilio media
  websocket are collected in output lists (`OpenAIFrame`, `TwilioFrame`).
* Each branch of the two `async for` loops becomes one case of a step
  function; a run function folds a step over a list of events.  The two
  loops interleave only at `await` points, so at the granularity of one
  event handler the interleaving is an arbitrary list of inbound and
  outbound events.
* `running = false` models that the bridge handler has terminated (by
  `return`, `break`, or an uncaught exception); once the handler terminates
  the framework tears both websocket connections down, so no further event
  is processed.  `openaiOpen = false` models that `openai_ws.close()` ran;
  a send attempted on the closed OpenAI socket raises `ConnectionClosed`,
  which the code does not catch in `receive_from_twilio`, terminating the
  handler.
* Python floats holding money amounts are modelled as rationals; Python
  `round(x, 4)` becomes `round4` (round to the nearest multiple of
  1/10000).  The two disagree only on exact ties, which do not arise in
  the amounts considered here.
-/

/-- Frames the bridge writes to the OpenAI realtime websocket, as produced
by `json.dumps` calls on `openai_ws.send` in `src/main.py`.  Payload and
result strings are kept opaque. -/
inductive OpenAIFrame where
  | sessionUpdate
  | responseCreate (instructions : Option String)
  | inputAudioBufferAppend (payload : String)
  | inputAudioBufferCommit
  | truncate (itemId : String) (contentIndex : Nat) (audioEndMs : Int)
  | functionCallOutput (callId : String) (output : String)
deriving DecidableEq

/-- Frames the bridge writes to the Twilio media websocket
(`websocket.send_text` calls in `src/main.py`). -/
inductive TwilioFrame where
  | media (streamSid : String) (payload : String)
  | mark (streamSid : String)
  | clear (streamSid : Option String)
deriving DecidableEq

/-- The mutable per-call variables of `handle_media_stream`
(`src/main.py` lines 219 to 225), plus two connection flags. -/
structure SessionState where
  streamSid : Option String
  latestMediaTimestamp : Int
  lastAssistantItem : Option String
  markQueue : List String
  responseStartTimestampTwilio : Option Int
  firstMessageSent : Bool
  openaiOpen : Bool
  running : Bool
deriving DecidableEq

/-- State at the top of `handle_media_stream`, before any event arrives. -/
def initialState : SessionState :=
  { streamSid := none
    latestMediaTimestamp := 0
    lastAssistantItem := none
    markQueue := []
    responseStartTimestampTwilio := none
    firstMessageSent := false
    openaiOpen := true
    running := true }

/-- Instructions of the fixed decline message sent when the account has no
credits (`src/main.py` line 317). -/
def declineInstructions : String :=
  "Say exactly: I am sorry, but your account has insufficient credits. Please add credits at your dashboard to continue using this service. Thank you, goodbye."

/-- Instructions of the automatic greeting (`src/main.py` line 526). -/
def greetingInstructions : String :=
  "Greet the caller now using the greeting from Section 2 of your system prompt."

/-- Result of one step: the new session state and the frames written to
each websocket during the step, in order. -/
structure StepResult where
  state : SessionState
  toOpenAI : List OpenAIFrame
  toTwilio : List TwilioFrame
deriving DecidableEq

/-- Caller-side events consumed by `receive_from_twilio`
(`data.get("event")` in `src/main.py`).  A `start` event carries the
stream sid and the credits balance returned by `get_user_credits` for the
resolved agent owner; `none` models the paths where no agent is loaded
(missing `agent_id`, lookup failure) and the balance check is skipped.
A `media` event carries the parsed timestamp (`none` when
`int(...)` raises, in which case the code stores 0) and the base64
payload. -/
inductive TwilioEvent where
  | start (sid : String) (credits : Option ℚ)
  | media (timestamp : Option Int) (payload : String)
  | mark
  | stop
  | otherEvent
deriving DecidableEq

/-- Outcome of executing the tool-dispatch chain body for one
`response.function_call_arguments.done` event: either the chain ran to the
`if result:` line with the matched external call returning `ext`
(`none` models a Python-falsy result), or some call inside the `try`
raised and control jumped to the `except` clause at `src/main.py`
line 974. -/
inductive DispatchOutcome where
  | value (ext : Option String)
  | raised
deriving DecidableEq

/-- AI-side events consumed by `send_to_twilio` (`resp.get("type")` in
`src/main.py`).  `audioDelta` covers both `response.output_audio.delta`
and `response.audio.delta`; `none` for the delta or item id models a
missing or empty (falsy) field. -/
inductive AIEvent where
  | audioDelta (itemId : Option String) (delta : Option String)
  | speechStarted
  | speechStopped
  | functionCallDone (callId : String) (funcName : String) (outcome : DispatchOutcome)
  | errorEvent
  | otherEvent
deriving DecidableEq

/-- The tool names tested by the dispatch chain in `send_to_twilio`
(`src/main.py` lines 742 to 956), in source order. -/
def knownToolNames : List String :=
  ["check_availability", "create_appointment", "list_appointments",
   "send_order_confirmation", "send_appointment_confirmation",
   "log_call_summary", "process_payment", "search_shopify_products",
   "check_shopify_inventory", "create_shopify_order"]

/-- The value of the `result` variable after the if/elif chain of the
dispatch code ran without raising.  `result` starts as `None`; a matched
branch stores the external call result `ext`, except `log_call_summary`,
which always stores a fixed truthy success dict (modelled by an opaque
string); an unmatched name leaves `result` as `None`. -/
def matchedToolResult (funcName : String) (ext : Option String) : Option String :=
  if funcName = "check_availability" then ext
  else if funcName = "create_appointment" then ext
  else if funcName = "list_appointments" then ext
  else if funcName = "send_order_confirmation" then ext
  else if funcName = "send_appointment_confirmation" then ext
  else if funcName = "log_call_summary" then some "call-summary-recorded"
  else if funcName = "process_payment" then ext
  else if funcName = "search_shopify_products" then ext
  else if funcName = "check_shopify_inventory" then ext
  else if funcName = "create_shopify_order" then ext
  else none

/-- Handler for a `response.function_call_arguments.done` event
(`src/main.py` lines 730 to 975).  If the dispatch raised, the `except`
clause only logs and nothing is sent.  Otherwise, when the `result` is
truthy the code sends a `conversation.item.create` frame with a
`function_call_output` item followed by a `response.create` frame; when
`result` is falsy nothing is sent. -/
def handleFunctionCall (s : SessionState) (callId funcName : String)
    (outcome : DispatchOutcome) : StepResult :=
  match outcome with
  | DispatchOutcome.raised => { state := s, toOpenAI := [], toTwilio := [] }
  | DispatchOutcome.value ext =>
    match matchedToolResult funcName ext with
    | some out =>
      { state := s
        toOpenAI := [OpenAIFrame.functionCallOutput callId out,
                     OpenAIFrame.responseCreate none]
        toTwilio := [] }
    | none => { state := s, toOpenAI := [], toTwilio := [] }

/-- The nested `handle_speech_started_event` coroutine (`src/main.py`
lines 241 to 273): returns early unless `last_assistant_item` and
`response_start_timestamp_twilio` are both set; otherwise sends one
`conversation.item.truncate` frame with `audio_end_ms = max(0, elapsed)`,
one `clear` frame to Twilio, clears the mark queue and resets both
utterance fields to `None`. -/
def handleSpeechStarted (s : SessionState) : StepResult :=
  match s.lastAssistantItem with
  | none => { state := s, toOpenAI := [], toTwilio := [] }
  | some itemId =>
    match s.responseStartTimestampTwilio with
    | none => { state := s, toOpenAI := [], toTwilio := [] }
    | some t0 =>
      { state := { s with markQueue := []
                          lastAssistantItem := none
                          responseStartTimestampTwilio := none }
        toOpenAI := [OpenAIFrame.truncate itemId 0
                      (max 0 (s.latestMediaTimestamp - t0))]
        toTwilio := [TwilioFrame.clear s.streamSid] }

/-- One iteration of the `send_to_twilio` loop (`src/main.py` lines 716
to 1009) for one OpenAI event.  For an audio delta with a truthy payload
and a set stream sid, a truthy item id different from
`last_assistant_item` starts a new utterance (recording
`response_start_timestamp_twilio = latest_media_timestamp`); the chunk is
forwarded as a `media` frame and `send_mark` sends a `mark` frame and
appends to the mark queue.  `speech_started` invokes the interruption
procedure; `speech_stopped` sends a commit and a `response.create`;
error events are only logged. -/
def outboundStep (s : SessionState) (e : AIEvent) : StepResult :=
  match e with
  | AIEvent.audioDelta itemId delta =>
    match delta, s.streamSid with
    | some d, some sid =>
      let s1 :=
        match itemId with
        | some iid =>
          if s.lastAssistantItem ≠ some iid then
            { s with responseStartTimestampTwilio := some s.latestMediaTimestamp
                     lastAssistantItem := some iid }
          else s
        | none => s
      { state := { s1 with markQueue := s1.markQueue ++ ["responsePart"] }
        toOpenAI := []
        toTwilio := [TwilioFrame.media sid d, TwilioFrame.mark sid] }
    | _, _ => { state := s, toOpenAI := [], toTwilio := [] }
  | AIEvent.speechStarted => handleSpeechStarted s
  | AIEvent.speechStopped =>
    { state := s
      toOpenAI := [OpenAIFrame.inputAudioBufferCommit,
                   OpenAIFrame.responseCreate none]
      toTwilio := [] }
  | AIEvent.functionCallDone callId funcName outcome =>
    handleFunctionCall s callId funcName outcome
  | AIEvent.errorEvent => { state := s, toOpenAI := [], toTwilio := [] }
  | AIEvent.otherEvent => { state := s, toOpenAI := [], toTwilio := [] }

/-- One iteration of the `receive_from_twilio` loop (`src/main.py` lines
279 to 703) for one Twilio event.

For `start` with a loaded agent whose credits balance is `<= 0`
(line 309): the code sends the decline `response.create`, sleeps, closes
the OpenAI socket, then evaluates `await twilio_ws.close()` on the
undefined name `twilio_ws`.  The resulting `NameError` is swallowed by the
`except` at line 509, so the `return` at line 333 is never reached;
control falls through to the per-call state reset (lines 512 to 515) and
then to the greeting block, whose `openai_ws.send` on the now-closed
socket raises `ConnectionClosed`, which is not caught and terminates the
handler (after which the framework closes the Twilio leg).  Net effect:
one decline frame is sent, both utterance fields are reset, the OpenAI
socket is closed and the handler stops running with the greeting unsent.

For `start` with a positive balance the session update frame of
`initialize_session` is sent, per-call state is reset, and the greeting
`response.create` is sent once (`first_message_sent`).  For `start`
without a loaded agent the balance gate and session update are skipped.

For `media` the parsed timestamp (0 on parse failure) is stored and the
payload is forwarded as `input_audio_buffer.append`; a send on a closed
OpenAI socket raises and terminates the handler.  For `mark` one entry is
popped from the mark queue if non-empty.  For `stop` the loop breaks. -/
def inboundStep (s : SessionState) (e : TwilioEvent) : StepResult :=
  match e with
  | TwilioEvent.start sid credits =>
    let s0 := { s with streamSid := some sid }
    match credits with
    | some bal =>
      if bal ≤ 0 then
        { state := { s0 with openaiOpen := false
                             running := false
                             responseStartTimestampTwilio := none
                             latestMediaTimestamp := 0
                             lastAssistantItem := none }
          toOpenAI := [OpenAIFrame.responseCreate (some declineInstructions)]
          toTwilio := [] }
      else
        let s1 := { s0 with responseStartTimestampTwilio := none
                            latestMediaTimestamp := 0
                            lastAssistantItem := none }
        if s1.firstMessageSent then
          { state := s1, toOpenAI := [OpenAIFrame.sessionUpdate], toTwilio := [] }
        else
          { state := { s1 with firstMessageSent := true }
            toOpenAI := [OpenAIFrame.sessionUpdate,
                         OpenAIFrame.responseCreate (some greetingInstructions)]
            toTwilio := [] }
    | none =>
      let s1 := { s0 with responseStartTimestampTwilio := none
                          latestMediaTimestamp := 0
                          lastAssistantItem := none }
      if s1.firstMessageSent then
        { state := s1, toOpenAI := [], toTwilio := [] }
      else
        { state := { s1 with firstMessageSent := true }
          toOpenAI := [OpenAIFrame.responseCreate (some greetingInstructions)]
          toTwilio := [] }
  | TwilioEvent.media ts payload =>
    let t := match ts with | some t => t | none => 0
    if s.openaiOpen then
      { state := { s with latestMediaTimestamp := t }
        toOpenAI := [OpenAIFrame.inputAudioBufferAppend payload]
        toTwilio := [] }
    else
      { state := { s with latestMediaTimestamp := t, running := false }
        toOpenAI := []
        toTwilio := [] }
  | TwilioEvent.mark =>
    match s.markQueue with
    | [] => { state := s, toOpenAI := [], toTwilio := [] }
    | _ :: rest =>
      { state := { s with markQueue := rest }, toOpenAI := [], toTwilio := [] }
  | TwilioEvent.stop =>
    { state := { s with running := false }, toOpenAI := [], toTwilio := [] }
  | TwilioEvent.otherEvent => { state := s, toOpenAI := [], toTwilio := [] }

/-- An event delivered to the bridge: one message of either loop.  The
cooperative scheduler interleaves the two loops at await points, so a call
is an arbitrary interleaving, i.e. a list of these. -/
inductive Event where
  | inbound (e : TwilioEvent)
  | outbound (e : AIEvent)
deriving DecidableEq

/-- Dispatch one event to its loop.  Once the handler has terminated
(`running = false`) no further event is processed: both loops have
returned and the framework has closed the sockets. -/
def step (s : SessionState) (ev : Event) : StepResult :=
  if s.running then
    match ev with
    | Event.inbound e => inboundStep s e
    | Event.outbound e => outboundStep s e
  else { state := s, toOpenAI := [], toTwilio := [] }

/-- Fold `step` over an event list, concatenating the emitted frames. -/
def runLoop : SessionState → List Event → StepResult
  | s, [] => { state := s, toOpenAI := [], toTwilio := [] }
  | s, ev :: rest =>
    let r := step s ev
    let r2 := runLoop r.state rest
    { state := r2.state
      toOpenAI := r.toOpenAI ++ r2.toOpenAI
      toTwilio := r.toTwilio ++ r2.toTwilio }

/-- A whole call: `initialize_session` sends one session configuration
frame before the loops start (`src/main.py` line 212), then the two loops
process the interleaved events from the initial state. -/
def runCall (evts : List Event) : StepResult :=
  let r := runLoop initialState evts
  { state := r.state
    toOpenAI := OpenAIFrame.sessionUpdate :: r.toOpenAI
    toTwilio := r.toTwilio }

/-- Python `round(x, 4)` on the money amounts of `src/db.py`, modelled
over the rationals: round to the nearest multiple of 1/10000 (ties do not
arise in the amounts considered in this development). -/
def round4 (x : ℚ) : ℚ := (round (x * 10000) : ℚ) / 10000

/-- `calculate_call_cost` (`src/db.py` lines 923 to 926). -/
def calculate_call_cost (durationSeconds : ℕ) (costPerMinute : ℚ) : ℚ :=
  round4 ((durationSeconds : ℚ) / 60 * costPerMinute)

/-- `calculate_call_revenue` (`src/db.py` lines 929 to 932). -/
def calculate_call_revenue (durationSeconds : ℕ) (revenuePerMinute : ℚ) : ℚ :=
  round4 ((durationSeconds : ℚ) / 60 * revenuePerMinute)

/-- One row of `credit_transactions` as inserted by `deduct_credits`
(`src/db.py` lines 1091 to 1094): the signed amount, the transaction
type, and the balance after the deduction. -/
structure LedgerEntry where
  amount : ℚ
  txType : String
  balanceAfter : ℚ
deriving DecidableEq

/-- Return value and side effects of `deduct_credits` (`src/db.py` lines
1051 to 1102): the returned success flag and balance, the amount
deducted, and the ledger row written (if any). -/
structure DeductOutcome where
  success : Bool
  balance : Option ℚ
  deducted : Option ℚ
  ledger : Option LedgerEntry
deriving DecidableEq

/-- `deduct_credits(user_id, amount, ...)` over the stored balance of the
account (`none` when the account has no `user_credits` row).  When the
current balance is below the amount the function refuses, deducts
nothing and writes no ledger row; otherwise it stores
`new_balance = current_balance - amount` and inserts a usage transaction
with `balance_after = new_balance`. -/
def deduct_credits (account : Option ℚ) (amount : ℚ) : DeductOutcome :=
  match account with
  | none => { success := false, balance := none, deducted := none, ledger := none }
  | some current =>
    if current < amount then
      { success := false, balance := some current, deducted := none, ledger := none }
    else
      { success := true
        balance := some (current - amount)
        deducted := some amount
        ledger := some { amount := -amount
                         txType := "usage"
                         balanceAfter := current - amount } }

/-- Billing finalization in the `stop` branch of `receive_from_twilio`
(`src/main.py` lines 560 to 590): calls shorter than one second skip
tracking and billing entirely (the `break` at line 566); otherwise the
customer charge is `calculate_call_revenue(duration, 0.10)` and
`deduct_credits` is called with it. -/
def stopHandlerBilling (durationSeconds : ℕ) (account : Option ℚ) :
    Option DeductOutcome :=
  if durationSeconds < 1 then none
  else some (deduct_credits account (calculate_call_revenue durationSeconds (1/10)))

/-- State used to instantiate the interruption scenario of the spec:
an assistant utterance is active, it started at caller-clock 5000 and the
latest caller audio timestamp is 6200. -/
def c3State : SessionState :=
  { initialState with streamSid := some "S"
                      latestMediaTimestamp := 6200
                      lastAssistantItem := some "item-1"
                      responseStartTimestampTwilio := some 5000 }

/-- Session state immediately after the interruption procedure truncated
the active utterance "item-7". -/
def truncatedState : SessionState :=
  (handleSpeechStarted
    { initialState with streamSid := some "S"
                        latestMediaTimestamp := 6200
                        lastAssistantItem := some "item-7"
                        responseStartTimestampTwilio := some 5000 }).state

/-- An active mid-call state used to exercise the tool-dispatch failure
path. -/
def c6State : SessionState :=
  { initialState with streamSid := some "S", firstMessageSent := true }

/-- A state with two outstanding playback acks in the mark queue. -/
def c9State : SessionState :=
  { initialState with markQueue := ["responsePart", "responsePart"] }

/-- The customer charge for a 42 second call at 0.10 per minute. -/
lemma charge42 : calculate_call_revenue 42 (1/10) = 7/100 := by
  unfold calculate_call_revenue round4
  norm_num

/-- Rounding a rational whose scaled value is an integer is exact. -/
lemma round4_int (x : ℚ) (n : ℤ) (h : x * 10000 = n) : round4 x = n / 10000 := by
  simp [round4, h]

/-- The outbound relay never changes the running flag: no AI-side handler
terminates the bridge loops. -/
lemma outboundStep_running_eq (s : SessionState) (e : AIEvent) :
    (outboundStep s e).state.running = s.running := by
  cases e <;>
    unfold outboundStep handleSpeechStarted handleFunctionCall <;>
    dsimp only <;> (repeat' split) <;> rfl

/-- The outbound relay never closes the OpenAI socket. -/
lemma outboundStep_openaiOpen_eq (s : SessionState) (e : AIEvent) :
    (outboundStep s e).state.openaiOpen = s.openaiOpen := by
  cases e <;>
    unfold outboundStep handleSpeechStarted handleFunctionCall <;>
    dsimp only <;> (repeat' split) <;> rfl

/-- The outbound relay never emits an input audio append frame: caller
audio reaches the AI only through the inbound relay. -/
lemma outboundStep_no_append (s : SessionState) (e : AIEvent) (p : String) :
    OpenAIFrame.inputAudioBufferAppend p ∉ (outboundStep s e).toOpenAI := by
  cases e <;>
    unfold outboundStep handleSpeechStarted handleFunctionCall <;>
    dsimp only <;> (repeat' split) <;> simp

/-- Once the handler has terminated, a step is a no-op. -/
lemma step_of_not_running (s : SessionState) (ev : Event) (h : s.running = false) :
    step s ev = { state := s, toOpenAI := [], toTwilio := [] } := by
  simp [step, h]

/-- Once the handler has terminated, the rest of the trace is a no-op. -/
lemma runLoop_of_not_running (s : SessionState) (evts : List Event)
    (h : s.running = false) :
    runLoop s evts = { state := s, toOpenAI := [], toTwilio := [] } := by
  induction evts with
  | nil => rfl
  | cons e t ih => simp [runLoop, step_of_not_running s e h, ih]

/-- Run of a concatenated trace splits into runs of the pieces. -/
lemma runLoop_append (s : SessionState) (l1 l2 : List Event) :
    runLoop s (l1 ++ l2) =
      { state := (runLoop (runLoop s l1).state l2).state
        toOpenAI := (runLoop s l1).toOpenAI ++ (runLoop (runLoop s l1).state l2).toOpenAI
        toTwilio := (runLoop s l1).toTwilio ++ (runLoop (runLoop s l1).state l2).toTwilio } := by
  induction l1 generalizing s with
  | nil => simp [runLoop]
  | cons e t ih => simp [runLoop, ih]

/-- A prefix of AI-side events preserves the connection flags and emits
no caller-audio append frames. -/
lemma runLoop_outbound_prefix (pre : List AIEvent) (s : SessionState) :
    (runLoop s (pre.map Event.outbound)).state.running = s.running ∧
    (runLoop s (pre.map Event.outbound)).state.openaiOpen = s.openaiOpen ∧
    ∀ p, OpenAIFrame.inputAudioBufferAppend p ∉ (runLoop s (pre.map Event.outbound)).toOpenAI := by
  induction pre generalizing s with
  | nil => simp [runLoop]
  | cons e rest ih =>
    by_cases hr : s.running
    · have hstep : step s (Event.outbound e) = outboundStep s e := by
        simp [step, hr]
      obtain ⟨h1, h2, h3⟩ := ih (outboundStep s e).state
      refine ⟨?_, ?_, ?_⟩
      · simp only [List.map_cons, runLoop, hstep]
        rw [h1, outboundStep_running_eq]
      · simp only [List.map_cons, runLoop, hstep]
        rw [h2, outboundStep_openaiOpen_eq]
      · intro p
        simp only [List.map_cons, runLoop, hstep, List.mem_append]
        rintro (hmem | hmem)
        · exact outboundStep_no_append s e p hmem
        · exact h3 p hmem
    · have hr' : s.running = false := by simpa using hr
      rw [runLoop_of_not_running s _ hr']
      simp [hr']

/-- A start event whose resolved account has a non-positive credits
balance sends the decline message, closes the OpenAI socket and
terminates the handler. -/
lemma inboundStep_start_insufficient (s : SessionState) (sid : String) (bal : ℚ)
    (h : bal ≤ 0) :
    inboundStep s (TwilioEvent.start sid (some bal)) =
      { state := { s with streamSid := some sid
                          openaiOpen := false
                          running := false
                          responseStartTimestampTwilio := none
                          latestMediaTimestamp := 0
                          lastAssistantItem := none }
        toOpenAI := [OpenAIFrame.responseCreate (some declineInstructions)]
        toTwilio := [] } := by
  simp [inboundStep, h]

/-- C1: for every call whose account balance at call start is zero or
negative, the bridge terminates (reaching the terminal state with the
OpenAI socket closed and the handler no longer running, after which the
telephony leg is torn down), the fixed decline message is requested from
the AI, and no `input_audio_buffer.append` frame is ever sent to the AI
backend at any point of the call: not by the AI-side events processed
before the start event, not by the start event, and not afterwards. -/
theorem balance_gate_closes_without_audio
    (pre : List AIEvent) (sid : String) (bal : ℚ) (post : List Event) (p : String)
    (hbal : bal ≤ 0) :
    (runCall (pre.map Event.outbound ++
        Event.inbound (TwilioEvent.start sid (some bal)) :: post)).state.running = false ∧
    (runCall (pre.map Event.outbound ++
        Event.inbound (TwilioEvent.start sid (some bal)) :: post)).state.openaiOpen = false ∧
    OpenAIFrame.responseCreate (some declineInstructions) ∈
      (runCall (pre.map Event.outbound ++
        Event.inbound (TwilioEvent.start sid (some bal)) :: post)).toOpenAI ∧
    OpenAIFrame.inputAudioBufferAppend p ∉
      (runCall (pre.map Event.outbound ++
        Event.inbound (TwilioEvent.start sid (some bal)) :: post)).toOpenAI := by
  obtain ⟨hrun, hopen, hnoapp⟩ := runLoop_outbound_prefix pre initialState
  have hrun' : (runLoop initialState (pre.map Event.outbound)).state.running = true :=
    hrun.trans rfl
  have hstep : step (runLoop initialState (pre.map Event.outbound)).state
      (Event.inbound (TwilioEvent.start sid (some bal))) =
      inboundStep (runLoop initialState (pre.map Event.outbound)).state
        (TwilioEvent.start sid (some bal)) := by
    simp only [step, hrun', if_true]
  have hclosed :
      (inboundStep (runLoop initialState (pre.map Event.outbound)).state
        (TwilioEvent.start sid (some bal))).state.running = false := by
    rw [inboundStep_start_insufficient _ sid bal hbal]
  unfold runCall
  rw [runLoop_append]
  simp only [runLoop, hstep]
  rw [runLoop_of_not_running _ post hclosed]
  rw [inboundStep_start_insufficient _ sid bal hbal]
  refine ⟨rfl, rfl, ?_, ?_⟩
  · simp
  · intro hmem
    simp at hmem
    exact hnoapp p hmem

/-- Witness for C1 at a concrete call: a start event with balance 0 and
no other events. -/
theorem balance_gate_closes_without_audio_witness :
    (runCall [Event.inbound (TwilioEvent.start "S" (some 0))]).state.running = false ∧
    (runCall [Event.inbound (TwilioEvent.start "S" (some 0))]).state.openaiOpen = false ∧
    OpenAIFrame.responseCreate (some declineInstructions) ∈
      (runCall [Event.inbound (TwilioEvent.start "S" (some 0))]).toOpenAI ∧
    OpenAIFrame.inputAudioBufferAppend "payload" ∉
      (runCall [Event.inbound (TwilioEvent.start "S" (some 0))]).toOpenAI :=
  balance_gate_closes_without_audio [] "S" 0 [] "payload" le_rfl

/-- C2 as stated is false on the code: the media handler stores the
frame timestamp directly (`latest_media_timestamp = int(...)`), so a
frame carrying a smaller timestamp makes the value decrease.  After the
frames with timestamps 5 and 3 the value is 3, strictly below the value 5
it had before the third event. -/
theorem latest_timestamp_decreases_on_stale_frame :
    (runLoop initialState
      [Event.inbound (TwilioEvent.start "S" (some 1)),
       Event.inbound (TwilioEvent.media (some 5) "p"),
       Event.inbound (TwilioEvent.media (some 3) "p")]).state.latestMediaTimestamp <
    (runLoop initialState
      [Event.inbound (TwilioEvent.start "S" (some 1)),
       Event.inbound (TwilioEvent.media (some 5) "p")]).state.latestMediaTimestamp := by
  decide

/-- C2 amended: after a caller audio frame, `latest_media_timestamp`
equals the timestamp carried by the frame; it is therefore non-decreasing
exactly when the timestamps carried by successive frames are
non-decreasing (which the telephony edge guarantees), not regardless of
the frame timestamps. -/
theorem latest_timestamp_follows_frames (s : SessionState) (t : Int) (p : String)
    (h : s.latestMediaTimestamp ≤ t) :
    (inboundStep s (TwilioEvent.media (some t) p)).state.latestMediaTimestamp = t ∧
    s.latestMediaTimestamp ≤
      (inboundStep s (TwilioEvent.media (some t) p)).state.latestMediaTimestamp := by
  unfold inboundStep
  dsimp only
  split <;> exact ⟨rfl, h⟩

/-- Witness for the amended C2 at a concrete state and frame. -/
theorem latest_timestamp_follows_frames_witness :
    (inboundStep initialState (TwilioEvent.media (some 7) "p")).state.latestMediaTimestamp = 7 ∧
    initialState.latestMediaTimestamp ≤
      (inboundStep initialState (TwilioEvent.media (some 7) "p")).state.latestMediaTimestamp :=
  latest_timestamp_follows_frames initialState 7 "p" (by decide)

/-- C3: when the barge-in handler runs while an assistant utterance is
active and its start timestamp is recorded, it sends exactly one truncate
frame to the AI carrying the active utterance id and
`max 0 (latestMediaTimestamp - start)`, exactly one clear frame to the
telephony edge, resets both utterance fields to none and empties the
pending playback-ack queue. -/
theorem active_interruption_truncates (s : SessionState) (iid : String) (t0 : Int)
    (h1 : s.lastAssistantItem = some iid)
    (h2 : s.responseStartTimestampTwilio = some t0) :
    handleSpeechStarted s =
      { state := { s with markQueue := []
                          lastAssistantItem := none
                          responseStartTimestampTwilio := none }
        toOpenAI := [OpenAIFrame.truncate iid 0 (max 0 (s.latestMediaTimestamp - t0))]
        toTwilio := [TwilioFrame.clear s.streamSid] } := by
  simp [handleSpeechStarted, h1, h2]

/-- Witness for C3 at the scenario of the spec: utterance started at
caller-clock 5000, caller audio now at 6200, so the truncate frame
carries 1200. -/
theorem active_interruption_truncates_witness :
    handleSpeechStarted c3State =
      { state := { c3State with markQueue := []
                                lastAssistantItem := none
                                responseStartTimestampTwilio := none }
        toOpenAI := [OpenAIFrame.truncate "item-1" 0 1200]
        toTwilio := [TwilioFrame.clear (some "S")] } := by
  have h := active_interruption_truncates c3State "item-1" 5000 rfl rfl
  rw [h]
  decide

/-- C4 as stated is false on the code: a speech-audio chunk tagged with
the just-truncated utterance id that arrives after truncation is not
dropped; the handler treats the id (different from the now-null
`last_assistant_item`) as a new utterance and forwards the chunk to the
caller as a media event. -/
theorem truncated_chunk_still_forwarded :
    TwilioFrame.media "S" "late-chunk" ∈
      (outboundStep truncatedState
        (AIEvent.audioDelta (some "item-7") (some "late-chunk"))).toTwilio := by
  decide

/-- C4 amended: after truncation (no active utterance), a chunk carrying
any utterance id, the truncated one included, is registered as a new
active utterance with its start timestamp set to the current caller
timestamp, is forwarded to the caller as a media event, and a mark is
enqueued. -/
theorem late_chunk_starts_new_utterance (s : SessionState) (iid d sid : String)
    (h1 : s.lastAssistantItem = none) (h2 : s.streamSid = some sid) :
    outboundStep s (AIEvent.audioDelta (some iid) (some d)) =
      { state := { s with responseStartTimestampTwilio := some s.latestMediaTimestamp
                          lastAssistantItem := some iid
                          markQueue := s.markQueue ++ ["responsePart"] }
        toOpenAI := []
        toTwilio := [TwilioFrame.media sid d, TwilioFrame.mark sid] } := by
  simp [outboundStep, h1, h2]

/-- Witness for the amended C4: the truncated utterance id arriving at
the post-truncation state. -/
theorem late_chunk_starts_new_utterance_witness :
    outboundStep truncatedState (AIEvent.audioDelta (some "item-7") (some "late2")) =
      { state := { truncatedState with
                     responseStartTimestampTwilio := some truncatedState.latestMediaTimestamp
                     lastAssistantItem := some "item-7"
                     markQueue := truncatedState.markQueue ++ ["responsePart"] }
        toOpenAI := []
        toTwilio := [TwilioFrame.media "S" "late2", TwilioFrame.mark "S"] } :=
  late_chunk_starts_new_utterance truncatedState "item-7" "late2" "S" rfl rfl

/-- C5 amended: for a completed call of duration D of at least one
second, whose account balance at call end covers the charge, the amount
deducted equals `round4 ((D/60) * 0.05 * 2)` (cost-per-minute 0.05 with
markup 2, i.e. revenue-per-minute 0.10), the stored and returned balance
is `oldBalance - charge`, and the ledger row written by the same
deduction records that balance.  Without the sufficiency hypothesis the
claim fails: `deduct_credits` refuses and records nothing. -/
theorem call_charge_formula (d : ℕ) (bal : ℚ)
    (hd : 1 ≤ d)
    (hbal : calculate_call_revenue d (1/10) ≤ bal) :
    stopHandlerBilling d (some bal) =
      some { success := true
             balance := some (bal - round4 ((d : ℚ) / 60 * (5/100) * 2))
             deducted := some (round4 ((d : ℚ) / 60 * (5/100) * 2))
             ledger := some { amount := -(round4 ((d : ℚ) / 60 * (5/100) * 2))
                              txType := "usage"
                              balanceAfter := bal - round4 ((d : ℚ) / 60 * (5/100) * 2) } } := by
  have hrev : calculate_call_revenue d (1/10) = round4 ((d : ℚ) / 60 * (5/100) * 2) := by
    unfold calculate_call_revenue
    exact congrArg round4 (by ring)
  have hnot : ¬ (d < 1) := by omega
  have hge : ¬ (bal < calculate_call_revenue d (1/10)) := not_lt.mpr hbal
  have hded : deduct_credits (some bal) (calculate_call_revenue d (1/10)) =
      { success := true
        balance := some (bal - calculate_call_revenue d (1/10))
        deducted := some (calculate_call_revenue d (1/10))
        ledger := some { amount := -(calculate_call_revenue d (1/10))
                         txType := "usage"
                         balanceAfter := bal - calculate_call_revenue d (1/10) } } := by
    unfold deduct_credits
    dsimp only
    rw [if_neg hge]
  unfold stopHandlerBilling
  rw [if_neg hnot, hded, hrev]

/-- Witness for the amended C5 at the scenario of the spec: a 42 second
call at cost 0.05 per minute and markup 2 charges 0.07 and turns a
balance of 10.00 into 9.93, recorded in the ledger row. -/
theorem call_charge_formula_witness :
    stopHandlerBilling 42 (some 10) =
      some { success := true
             balance := some (993/100)
             deducted := some (7/100)
             ledger := some { amount := -(7/100)
                              txType := "usage"
                              balanceAfter := 993/100 } } := by
  have h7 : round4 (((42 : ℕ) : ℚ) / 60 * (5/100) * 2) = 7/100 := by
    rw [round4_int (((42 : ℕ) : ℚ) / 60 * (5/100) * 2) 700 (by norm_num)]
    norm_num
  have hbal : calculate_call_revenue 42 (1/10) ≤ 10 := by
    rw [charge42]; norm_num
  have h := call_charge_formula 42 10 (by norm_num) hbal
  rw [h, h7]
  norm_num [Option.some.injEq, DeductOutcome.mk.injEq, LedgerEntry.mk.injEq]

/-- C5 as universally stated is false on the code: when the balance at
call end does not cover the charge, `deduct_credits` refuses, deducts
nothing and writes no ledger row.  A 42 second call (charge 0.07) against
a remaining balance of 0.01 deducts nothing. -/
theorem insufficient_balance_skips_deduction :
    stopHandlerBilling 42 (some (1/100)) =
      some { success := false
             balance := some (1/100)
             deducted := none
             ledger := none } := by
  unfold stopHandlerBilling
  rw [if_neg (by norm_num), charge42]
  unfold deduct_credits
  dsimp only
  rw [if_pos (by norm_num)]

/-- C6 as stated is false on the code: when the tool dispatch raises
(timeout or downstream error), the `except` clause only logs; no
structured error result, indeed no frame at all, is sent to the AI
backend for that call id.  The session does remain active (the state,
including the running flag, is unchanged). -/
theorem dispatch_exception_sends_no_error_result :
    (outboundStep c6State
      (AIEvent.functionCallDone "call-9" "check_availability"
        DispatchOutcome.raised)).toOpenAI = [] ∧
    (outboundStep c6State
      (AIEvent.functionCallDone "call-9" "check_availability"
        DispatchOutcome.raised)).state = c6State := by
  decide

/-- C6 amended: for every tool-call request whose dispatch raises, the
relay sends nothing to either side and leaves the session state (and so
the running call) unchanged: the relay never closes the call because a
tool dispatch failed, but the AI receives no error result either. -/
theorem dispatch_failure_is_silent (s : SessionState) (cid fname : String) :
    outboundStep s (AIEvent.functionCallDone cid fname DispatchOutcome.raised) =
      { state := s, toOpenAI := [], toTwilio := [] } :=
  rfl

/-- C7: the interruption procedure is idempotent: invoking the barge-in
handler on the state left by any previous invocation sends no truncate
frame, no clear frame, and leaves the state unchanged. -/
theorem interruption_idempotent (s : SessionState) :
    handleSpeechStarted (handleSpeechStarted s).state =
      { state := (handleSpeechStarted s).state, toOpenAI := [], toTwilio := [] } := by
  cases h1 : s.lastAssistantItem with
  | none => simp [handleSpeechStarted, h1]
  | some iid =>
    cases h2 : s.responseStartTimestampTwilio with
    | none => simp [handleSpeechStarted, h1, h2]
    | some t0 => simp [handleSpeechStarted, h1, h2]

/-- The invariant of C8: the assistant utterance start timestamp is set
exactly when an assistant utterance id is active. -/
def utteranceInv (s : SessionState) : Prop :=
  s.responseStartTimestampTwilio.isSome = s.lastAssistantItem.isSome

/-- Every event handler preserves the utterance invariant: each branch
either sets both utterance fields, resets both, or touches neither. -/
lemma utteranceInv_step (s : SessionState) (ev : Event) (h : utteranceInv s) :
    utteranceInv (step s ev).state := by
  unfold utteranceInv at h ⊢
  unfold step
  split
  · cases ev with
    | inbound e =>
      cases e <;>
        unfold inboundStep <;> dsimp only <;> (repeat' split) <;> simp_all
    | outbound e =>
      cases e <;>
        unfold outboundStep handleSpeechStarted handleFunctionCall <;>
        dsimp only <;> (repeat' split) <;> simp_all
  · exact h

/-- C8: the biconditional between the two utterance fields is preserved
by every event handler, and holds in every state reachable by any
sequence of caller-side and AI-side events from the start of a call. -/
theorem utterance_fields_null_together :
    (∀ s ev, utteranceInv s → utteranceInv (step s ev).state) ∧
    (∀ evts, utteranceInv (runCall evts).state) := by
  refine ⟨utteranceInv_step, ?_⟩
  have hrun : ∀ l s, utteranceInv s → utteranceInv (runLoop s l).state := by
    intro l
    induction l with
    | nil => intro s h; simpa [runLoop] using h
    | cons e t ih =>
      intro s h
      have h1 := utteranceInv_step s e h
      simpa [runLoop] using ih (step s e).state h1
  intro evts
  have h0 : utteranceInv initialState := rfl
  simpa [runCall] using hrun evts initialState h0

/-- Witness for C8: preservation at a concrete state and event, and the
invariant of a concrete reachable state. -/
theorem utterance_fields_null_together_witness :
    utteranceInv (step initialState (Event.outbound AIEvent.speechStarted)).state ∧
    utteranceInv (runCall [Event.inbound TwilioEvent.mark]).state :=
  ⟨utterance_fields_null_together.1 initialState (Event.outbound AIEvent.speechStarted)
     rfl,
   utterance_fields_null_together.2 [Event.inbound TwilioEvent.mark]⟩

/-- C9: a playback-ack (mark) event pops exactly the oldest entry when
the queue is non-empty, and is a state-preserving no-op (no error, no
frames) when the queue is empty. -/
theorem mark_event_pops_one (s : SessionState) :
    (s.markQueue = [] →
      inboundStep s TwilioEvent.mark = { state := s, toOpenAI := [], toTwilio := [] }) ∧
    (∀ m rest, s.markQueue = m :: rest →
      inboundStep s TwilioEvent.mark =
        { state := { s with markQueue := rest }, toOpenAI := [], toTwilio := [] }) := by
  constructor
  · intro h
    simp [inboundStep, h]
  · intro m rest h
    simp [inboundStep, h]

/-- Witness for C9: an empty queue is untouched; a queue with two acks
loses exactly its oldest entry. -/
theorem mark_event_pops_one_witness :
    inboundStep initialState TwilioEvent.mark =
      { state := initialState, toOpenAI := [], toTwilio := [] } ∧
    inboundStep c9State TwilioEvent.mark =
      { state := { c9State with markQueue := ["responsePart"] },
        toOpenAI := [], toTwilio := [] } :=
  ⟨(mark_event_pops_one initialState).1 rfl,
   (mark_event_pops_one c9State).2 "responsePart" ["responsePart"] rfl⟩

/-- C10: a tool-call request whose name matches no branch of the
dispatch chain leaves the result falsy, and whenever the result is falsy
the relay sends neither a function-call-output item nor a
response-request frame and leaves the session state unchanged. -/
theorem unmatched_tool_request_ignored :
    (∀ fname ext, fname ∉ knownToolNames → matchedToolResult fname ext = none) ∧
    (∀ s cid fname ext, matchedToolResult fname ext = none →
      outboundStep s (AIEvent.functionCallDone cid fname (DispatchOutcome.value ext)) =
        { state := s, toOpenAI := [], toTwilio := [] }) := by
  constructor
  · intro fname ext h
    simp only [knownToolNames, List.mem_cons, List.not_mem_nil, or_false] at h
    push_neg at h
    obtain ⟨h1, h2, h3, h4, h5, h6, h7, h8, h9, h10⟩ := h
    simp [matchedToolResult, h1, h2, h3, h4, h5, h6, h7, h8, h9, h10]
  · intro s cid fname ext h
    simp [outboundStep, handleFunctionCall, h]

/-- Witness for C10 at a concrete unknown tool name. -/
theorem unmatched_tool_request_ignored_witness :
    matchedToolResult "transfer_call" (some "r") = none ∧
    outboundStep initialState
      (AIEvent.functionCallDone "call-3" "transfer_call" (DispatchOutcome.value (some "r"))) =
      { state := initialState, toOpenAI := [], toTwilio := [] } := by
  have h1 := unmatched_tool_request_ignored.1 "transfer_call" (some "r") (by decide)
  exact ⟨h1, unmatched_tool_request_ignored.2 initialState "call-3" "transfer_call"
    (some "r") h1⟩
